import Mathlib

/-!
Verification of the Poster-Image-Generator request handler
(`lambda_function.py`) against its specification.

The handler is embedded shallowly: Python dicts/JSON values become the
`Json` inductive, the inbound Lambda event becomes `Event`, the external
collaborators (Bedrock generation backend, S3 storage, the clock and the
UUID source) become the `World` record of inputs, and the two backend side
effects are recorded in the returned `HandlerResult`. Python exceptions
(e.g. `base64.b64decode(None)`) are modelled with `Except String`.
-/

/-- JSON-like values, covering every Python value the handler touches.
`null` doubles as Python `None` (as produced by `dict.get` misses). -/
inductive Json where
  | null : Json
  | bool : Bool → Json
  | num : Int → Json
  | str : String → Json
  | arr : List Json → Json
  | obj : List (String × Json) → Json

/-- Python truthiness (`bool(x)`) for the values `Json` can hold. -/
def jsonTruthy : Json → Bool
  | .null => false
  | .bool b => b
  | .num n => n != 0
  | .str s => s != ""
  | .arr xs => !xs.isEmpty
  | .obj kvs => !kvs.isEmpty

/-- Key lookup in a JSON object; `none` for non-objects or missing keys. -/
def jsonGet (j : Json) (k : String) : Option Json :=
  match j with
  | .obj kvs => kvs.lookup k
  | _ => none

/-- `pat` occurs at the start of `s` (substring matching helper). -/
def startsL : List Char → List Char → Bool
  | [], _ => true
  | _ :: _, [] => false
  | p :: ps, c :: cs => p = c && startsL ps cs

/-- `pat` occurs somewhere in `s` (Python `sub in str`). -/
def occursIn (pat : List Char) : List Char → Bool
  | [] => startsL pat []
  | c :: cs => startsL pat (c :: cs) || occursIn pat cs

/-- Python `k in data`: key membership for dicts, element membership for
lists, substring test for strings, `TypeError` otherwise. -/
def pyContains (data : Json) (k : String) : Except String Bool :=
  match data with
  | .obj kvs => .ok (kvs.lookup k).isSome
  | .arr xs => .ok (xs.any (fun x => match x with | .str s => s = k | _ => false))
  | .str s => .ok (occursIn k.data s.data)
  | _ => .error "TypeError: argument is not iterable"

/-- Python `data[k]` with a string key: dict lookup (`KeyError` on a miss),
`TypeError` on anything that is not a dict. -/
def pySubscriptStr (data : Json) (k : String) : Except String Json :=
  match data with
  | .obj kvs =>
    match kvs.lookup k with
    | some v => .ok v
    | none => .error "KeyError"
  | _ => .error "TypeError: indices"

/-- Python `v[0]`: first element of a list, first character of a string,
`IndexError` when empty, `TypeError` when not subscriptable. -/
def pySubscript0 (v : Json) : Except String Json :=
  match v with
  | .arr (x :: _) => .ok x
  | .arr [] => .error "IndexError"
  | .str s =>
    match s.data with
    | c :: _ => .ok (.str (String.mk [c]))
    | [] => .error "IndexError"
  | _ => .error "TypeError: not subscriptable"

/-- Python `v.get(k)`: `None` (here `Json.null`) on a miss,
`AttributeError` when `v` is not a dict. -/
def pyGet (v : Json) (k : String) : Except String Json :=
  match v with
  | .obj kvs => .ok ((kvs.lookup k).getD Json.null)
  | _ => .error "AttributeError"

/-- Value of one base64-alphabet character. -/
def b64val (c : Char) : Option Nat :=
  if 'A' ≤ c ∧ c ≤ 'Z' then some (c.toNat - 65)
  else if 'a' ≤ c ∧ c ≤ 'z' then some (c.toNat - 97 + 26)
  else if '0' ≤ c ∧ c ≤ '9' then some (c.toNat - 48 + 52)
  else if c = '+' then some 62
  else if c = '/' then some 63
  else none

/-- Regroup a list of 6-bit values into 8-bit bytes. -/
def decodeVals : List Nat → List Nat
  | a :: b :: c :: d :: rest =>
    (a * 4 + b / 16) :: ((b % 16) * 16 + c / 4) :: ((c % 4) * 64 + d) :: decodeVals rest
  | [a, b] => [a * 4 + b / 16]
  | [a, b, c] => [a * 4 + b / 16, (b % 16) * 16 + c / 4]
  | _ => []

/-- Python `base64.b64decode` on a string: characters outside the alphabet
and `=` are discarded, then the padded length must be a multiple of four;
`none` models `binascii.Error`. -/
def b64decode (s : String) : Option (List Nat) :=
  let cs := s.data.filter (fun c => (b64val c).isSome || c = '=')
  let dat := cs.takeWhile (fun c => c ≠ '=')
  if cs.length % 4 = 0 ∧ dat.length % 4 ≠ 1 then
    some (decodeVals (dat.filterMap b64val))
  else none

/-- `base64.b64decode` applied to an arbitrary handler value: only strings
are accepted; `None` (a `.get` miss) raises `TypeError`. -/
def b64decodePy (v : Json) : Except String (List Nat) :=
  match v with
  | .str s =>
    match b64decode s with
    | some bs => .ok bs
    | none => .error "binascii.Error"
  | _ => .error "TypeError: b64decode argument"

/-- The inbound Lambda event: optional `httpMethod`, the direct parameter
map (Lambda test events), and optional `queryStringParameters`
(API Gateway proxy). -/
structure Event where
  httpMethod : Option String
  params : List (String × String)
  queryStringParameters : Option (List (String × String))

/-- Environment configuration (`MODEL_ID`, `BUCKET_NAME`, `KEY_PREFIX`,
`URL_EXPIRES_SECONDS`), already stripped. -/
structure Config where
  MODEL_ID : String
  BUCKET_NAME : String
  KEY_PREFIX : String
  URL_EXPIRES_SECONDS : Nat

/-- External collaborators and nondeterministic inputs of one invocation:
the parsed Bedrock response body, `datetime.now(timezone.utc)` formatted
as `%Y%m%dT%H%M%SZ`, `uuid.uuid4().hex`, and the presigned-URL generator
keyed by object key. -/
structure World where
  bedrockData : Json
  ts : String
  uuidHex : String
  presign : String → String

/-- An `s3.put_object` call recorded by the handler. -/
structure PutCall where
  bucket : String
  key : String
  body : List Nat
  contentType : String

/-- An HTTP response: status code, headers, and the JSON payload that the
source serializes with `json.dumps`. -/
structure Response where
  statusCode : Nat
  headers : List (String × String)
  body : Json

/-- Result of one invocation: either a returned response or an unhandled
Python exception, together with the recorded backend calls. -/
structure HandlerResult where
  result : Except String Response
  bedrockCalls : List Json
  putCalls : List PutCall

/-- `_headers()` from the source. -/
def _headers : List (String × String) :=
  [("Content-Type", "application/json"),
   ("Access-Control-Allow-Origin", "*"),
   ("Access-Control-Allow-Headers", "Content-Type"),
   ("Access-Control-Allow-Methods", "GET,OPTIONS")]

/-- `_resp(status_code, payload)` from the source. -/
def _resp (status_code : Nat) (payload : Json) : Response :=
  { statusCode := status_code, headers := _headers, body := payload }

/-- `_qsp(event)` from the source: `queryStringParameters or {}`. -/
def _qsp (event : Event) : List (String × String) :=
  event.queryStringParameters.getD []

/-- `_get_param(event, name, default)` from the source: the direct field
map wins; the query string is consulted only on a miss; else the default. -/
def _get_param (event : Event) (name : String) (dflt : String) : String :=
  match event.params.lookup name with
  | some v => v
  | none =>
    match (_qsp event).lookup name with
    | some v => v
    | none => dflt

/-- The SD3.5 request payload built at lines 76–83 of the source. -/
def request_body (prompt np ar of : String) : Json :=
  .obj [("prompt", .str prompt),
        ("negative_prompt", .str np),
        ("mode", .str "text-to-image"),
        ("seed", .num 0),
        ("output_format", .str of),
        ("aspect_ratio", .str ar)]

/-- Python `k in data and data[k]` (short-circuit): membership first, then
truthiness of the member. -/
def condMember (data : Json) (k : String) : Except String Bool := do
  let has ← pyContains data k
  if has then do
    let v ← pySubscriptStr data k
    pure (jsonTruthy v)
  else pure false

/-- Lines 95–100 of the source: probe the `images` shape, then the
`artifacts` shape; `ok none` is the `else` branch (no image found),
`ok (some v)` the extracted `image_b64` value, `error` a raised exception. -/
def extractImage (data : Json) : Except String (Option Json) := do
  let iTruthy ← condMember data "images"
  if iTruthy then do
    let v ← pySubscriptStr data "images"
    let x ← pySubscript0 v
    pure (some x)
  else do
    let aTruthy ← condMember data "artifacts"
    if aTruthy then do
      let v ← pySubscriptStr data "artifacts"
      let x ← pySubscript0 v
      let b ← pyGet x "base64"
      pure (some b)
    else
      pure none

/-- `lambda_handler` from the source, with backend calls recorded. -/
def lambda_handler (cfg : Config) (ext : World) (event : Event) : HandlerResult :=
  if event.httpMethod = some "OPTIONS" then
    { result := .ok { statusCode := 200, headers := _headers, body := .obj [("ok", .bool true)] },
      bedrockCalls := [], putCalls := [] }
  else
    let prompt := (_get_param event "prompt" "").trim
    if prompt = "" then
      { result := .ok (_resp 400 (.obj [("error", .str "Missing required parameter: prompt")])),
        bedrockCalls := [], putCalls := [] }
    else
      let np := (_get_param event "negative_prompt" "").trim
      let ar := (_get_param event "aspect_ratio" "1:1").trim
      let of := (_get_param event "output_format" "png").trim
      let body := request_body prompt np ar of
      let data := ext.bedrockData
      match extractImage data with
      | .error e =>
        { result := .error e, bedrockCalls := [body], putCalls := [] }
      | .ok none =>
        { result := .ok (_resp 502 (.obj [("error", .str "No image in Bedrock response"), ("raw", data)])),
          bedrockCalls := [body], putCalls := [] }
      | .ok (some image_b64) =>
        match b64decodePy image_b64 with
        | .error e =>
          { result := .error e, bedrockCalls := [body], putCalls := [] }
        | .ok image_bytes =>
          let pfx := if cfg.KEY_PREFIX.endsWith "/" then cfg.KEY_PREFIX else cfg.KEY_PREFIX ++ "/"
          let key := pfx ++ ext.ts ++ "-" ++ ext.uuidHex ++ "." ++ of
          let presigned_url := ext.presign key
          { result := .ok { statusCode := 200,
                            headers := [("Content-Type", "application/json"),
                                        ("Access-Control-Allow-Origin", "*"),
                                        ("Access-Control-Allow-Headers", "Content-Type"),
                                        ("Access-Control-Allow-Methods", "GET,OPTIONS")],
                            body := .obj [("presigned_url", .str presigned_url)] },
            bedrockCalls := [body],
            putCalls := [{ bucket := cfg.BUCKET_NAME, key := key, body := image_bytes,
                           contentType := "image/" ++ of }] }

/-! ### Concrete fixtures used by witnesses and counterexamples -/

def cfg0 : Config :=
  { MODEL_ID := "stability.sd3-5-large-v1:0", BUCKET_NAME := "bkt",
    KEY_PREFIX := "generated/", URL_EXPIRES_SECONDS := 3600 }

def w0 (data : Json) : World :=
  { bedrockData := data, ts := "20261012T000000Z", uuidHex := "aaaa",
    presign := fun k => "https://signed.example/" ++ k }

def ev0 : Event :=
  { httpMethod := some "GET", params := [("prompt", "hi")], queryStringParameters := none }

/-! ### Branch lemmas for `lambda_handler` -/

/-- OPTIONS branch (source line 64–65). -/
theorem lambda_handler_options (cfg : Config) (ext : World) (event : Event)
    (hm : event.httpMethod = some "OPTIONS") :
    lambda_handler cfg ext event =
      { result := .ok { statusCode := 200, headers := _headers, body := .obj [("ok", .bool true)] },
        bedrockCalls := [], putCalls := [] } := by
  unfold lambda_handler
  rw [if_pos hm]

/-- Empty-prompt branch (source lines 67–69). -/
theorem lambda_handler_emptyPrompt (cfg : Config) (ext : World) (event : Event)
    (hm : event.httpMethod ≠ some "OPTIONS")
    (hp : (_get_param event "prompt" "").trim = "") :
    lambda_handler cfg ext event =
      { result := .ok (_resp 400 (.obj [("error", .str "Missing required parameter: prompt")])),
        bedrockCalls := [], putCalls := [] } := by
  unfold lambda_handler
  rw [if_neg hm]
  simp [hp]

/-- No-image branch (source line 100). -/
theorem lambda_handler_noImage (cfg : Config) (ext : World) (event : Event)
    (hm : event.httpMethod ≠ some "OPTIONS")
    (hp : (_get_param event "prompt" "").trim ≠ "")
    (hx : extractImage ext.bedrockData = .ok none) :
    lambda_handler cfg ext event =
      { result := .ok (_resp 502 (.obj [("error", .str "No image in Bedrock response"),
                                        ("raw", ext.bedrockData)])),
        bedrockCalls := [request_body ((_get_param event "prompt" "").trim)
          ((_get_param event "negative_prompt" "").trim)
          ((_get_param event "aspect_ratio" "1:1").trim)
          ((_get_param event "output_format" "png").trim)],
        putCalls := [] } := by
  unfold lambda_handler
  rw [if_neg hm]
  simp [hp, hx]

/-- Success branch (source lines 102–142). -/
theorem lambda_handler_success (cfg : Config) (ext : World) (event : Event)
    (v : Json) (bytes : List Nat)
    (hm : event.httpMethod ≠ some "OPTIONS")
    (hp : (_get_param event "prompt" "").trim ≠ "")
    (hx : extractImage ext.bedrockData = .ok (some v))
    (hb : b64decodePy v = .ok bytes) :
    lambda_handler cfg ext event =
      { result := .ok
          { statusCode := 200,
            headers := _headers,
            body := .obj [("presigned_url", .str (ext.presign
              ((if cfg.KEY_PREFIX.endsWith "/" then cfg.KEY_PREFIX else cfg.KEY_PREFIX ++ "/") ++
                ext.ts ++ "-" ++ ext.uuidHex ++ "." ++ (_get_param event "output_format" "png").trim)))] },
        bedrockCalls := [request_body ((_get_param event "prompt" "").trim)
          ((_get_param event "negative_prompt" "").trim)
          ((_get_param event "aspect_ratio" "1:1").trim)
          ((_get_param event "output_format" "png").trim)],
        putCalls := [{ bucket := cfg.BUCKET_NAME,
                       key := (if cfg.KEY_PREFIX.endsWith "/" then cfg.KEY_PREFIX else cfg.KEY_PREFIX ++ "/") ++
                         ext.ts ++ "-" ++ ext.uuidHex ++ "." ++ (_get_param event "output_format" "png").trim,
                       body := bytes,
                       contentType := "image/" ++ (_get_param event "output_format" "png").trim }] } := by
  unfold lambda_handler
  rw [if_neg hm]
  simp [hp, hx, hb, _headers]

/-- The generation request is sent exactly once on every path past the
prompt check, with the payload of lines 76–83. -/
theorem lambda_handler_bedrockCalls (cfg : Config) (ext : World) (event : Event)
    (hm : event.httpMethod ≠ some "OPTIONS")
    (hp : (_get_param event "prompt" "").trim ≠ "") :
    (lambda_handler cfg ext event).bedrockCalls =
      [request_body ((_get_param event "prompt" "").trim)
        ((_get_param event "negative_prompt" "").trim)
        ((_get_param event "aspect_ratio" "1:1").trim)
        ((_get_param event "output_format" "png").trim)] := by
  unfold lambda_handler
  rw [if_neg hm]
  simp only [hp]
  cases hE : extractImage ext.bedrockData with
  | error e => simp [hp, hE]
  | ok o =>
    cases o with
    | none => simp [hp, hE]
    | some v => cases hB : b64decodePy v <;> simp [hp, hE, hB]

/-- Raised-exception branch of the shape probe: the generation call has
already been recorded, nothing is uploaded. -/
theorem lambda_handler_extractError (cfg : Config) (ext : World) (event : Event) (e : String)
    (hm : event.httpMethod ≠ some "OPTIONS")
    (hp : (_get_param event "prompt" "").trim ≠ "")
    (hx : extractImage ext.bedrockData = .error e) :
    lambda_handler cfg ext event =
      { result := .error e,
        bedrockCalls := [request_body ((_get_param event "prompt" "").trim)
          ((_get_param event "negative_prompt" "").trim)
          ((_get_param event "aspect_ratio" "1:1").trim)
          ((_get_param event "output_format" "png").trim)],
        putCalls := [] } := by
  unfold lambda_handler
  rw [if_neg hm]
  simp [hp, hx]

/-- Raised-exception branch of `base64.b64decode`: the generation call has
already been recorded, nothing is uploaded. -/
theorem lambda_handler_decodeError (cfg : Config) (ext : World) (event : Event)
    (v : Json) (e : String)
    (hm : event.httpMethod ≠ some "OPTIONS")
    (hp : (_get_param event "prompt" "").trim ≠ "")
    (hx : extractImage ext.bedrockData = .ok (some v))
    (hb : b64decodePy v = .error e) :
    lambda_handler cfg ext event =
      { result := .error e,
        bedrockCalls := [request_body ((_get_param event "prompt" "").trim)
          ((_get_param event "negative_prompt" "").trim)
          ((_get_param event "aspect_ratio" "1:1").trim)
          ((_get_param event "output_format" "png").trim)],
        putCalls := [] } := by
  unfold lambda_handler
  rw [if_neg hm]
  simp [hp, hx, hb]

/-! ### Lemmas about the shape probe -/

/-- Evaluating `k in data and data[k]` on a dict never raises: it is the
truthiness of the member when present, `False` otherwise. -/
theorem condMember_obj (kvs : List (String × Json)) (k : String) :
    condMember (.obj kvs) k = .ok ((kvs.lookup k).elim false jsonTruthy) := by
  unfold condMember
  cases h : kvs.lookup k <;>
    simp [pyContains, pySubscriptStr, h, bind, Except.bind, pure, Except.pure]

/-- A truthy `images` member that is a list hands over its first element,
regardless of any `artifacts` member. -/
theorem extractImage_images (kvs : List (String × Json)) (x : Json) (rest : List Json)
    (h : kvs.lookup "images" = some (.arr (x :: rest))) :
    extractImage (.obj kvs) = .ok (some x) := by
  unfold extractImage
  rw [condMember_obj, h]
  simp [pySubscriptStr, h, jsonTruthy, pySubscript0, bind, Except.bind, pure, Except.pure]

/-- With `images` absent or falsy, a non-empty `artifacts` list of dicts
hands over `artifacts[0].get("base64")` (with `None` on a miss). -/
theorem extractImage_artifacts (kvs akvs : List (String × Json)) (arest : List Json)
    (hi : ∀ v, kvs.lookup "images" = some v → jsonTruthy v = false)
    (ha : kvs.lookup "artifacts" = some (.arr (.obj akvs :: arest))) :
    extractImage (.obj kvs) = .ok (some ((akvs.lookup "base64").getD Json.null)) := by
  unfold extractImage
  rw [condMember_obj, condMember_obj, ha]
  have hfalse : (kvs.lookup "images").elim false jsonTruthy = false := by
    cases hI : kvs.lookup "images" with
    | none => rfl
    | some v => simpa using hi v hI
  rw [hfalse]
  simp [pySubscriptStr, ha, jsonTruthy, pySubscript0, pyGet, bind, Except.bind, pure, Except.pure]

/-- With neither a truthy `images` member nor a truthy `artifacts` member
the probe lands in the `else` branch. -/
theorem extractImage_none (kvs : List (String × Json))
    (hi : ∀ v, kvs.lookup "images" = some v → jsonTruthy v = false)
    (ha : ∀ v, kvs.lookup "artifacts" = some v → jsonTruthy v = false) :
    extractImage (.obj kvs) = .ok none := by
  unfold extractImage
  rw [condMember_obj, condMember_obj]
  have hfi : (kvs.lookup "images").elim false jsonTruthy = false := by
    cases hI : kvs.lookup "images" with
    | none => rfl
    | some v => simpa using hi v hI
  have hfa : (kvs.lookup "artifacts").elim false jsonTruthy = false := by
    cases hA : kvs.lookup "artifacts" with
    | none => rfl
    | some v => simpa using ha v hA
  rw [hfi, hfa]
  simp [bind, Except.bind, pure, Except.pure]

/-! ### Inversion: what a recorded upload implies -/

/-- If one upload was recorded, the invocation took the success path: the
key has the prefix/timestamp/uuid/format build of line 107, and the
response is 200 with exactly the presigned URL of that key. -/
theorem lambda_handler_put_inv (cfg : Config) (ext : World) (event : Event) (pc : PutCall)
    (h : (lambda_handler cfg ext event).putCalls = [pc]) :
    pc.key = (if cfg.KEY_PREFIX.endsWith "/" then cfg.KEY_PREFIX else cfg.KEY_PREFIX ++ "/") ++
      ext.ts ++ "-" ++ ext.uuidHex ++ "." ++ (_get_param event "output_format" "png").trim ∧
    (lambda_handler cfg ext event).result =
      .ok { statusCode := 200, headers := _headers,
            body := .obj [("presigned_url", .str (ext.presign pc.key))] } := by
  by_cases hm : event.httpMethod = some "OPTIONS"
  · rw [lambda_handler_options cfg ext event hm] at h
    exact absurd h (by simp)
  · by_cases hp : (_get_param event "prompt" "").trim = ""
    · rw [lambda_handler_emptyPrompt cfg ext event hm hp] at h
      exact absurd h (by simp)
    · cases hE : extractImage ext.bedrockData with
      | error e =>
        rw [lambda_handler_extractError cfg ext event e hm hp hE] at h
        exact absurd h (by simp)
      | ok o =>
        cases o with
        | none =>
          rw [lambda_handler_noImage cfg ext event hm hp hE] at h
          exact absurd h (by simp)
        | some v =>
          cases hB : b64decodePy v with
          | error e =>
            rw [lambda_handler_decodeError cfg ext event v e hm hp hE hB] at h
            exact absurd h (by simp)
          | ok bytes =>
            have hS := lambda_handler_success cfg ext event v bytes hm hp hE hB
            rw [hS] at h
            have hpc := (List.cons.inj h).1
            constructor
            · rw [← hpc]
            · rw [hS, ← hpc]

/-! ### Injectivity of the storage-key build -/

/-- Keys built from equal-length timestamps and equal-length unique
suffixes coincide only if the suffixes coincide. -/
theorem key_build_inj (p t1 t2 u1 u2 f1 f2 : String)
    (ht : t1.length = t2.length) (hu : u1.length = u2.length)
    (hk : p ++ t1 ++ "-" ++ u1 ++ "." ++ f1 = p ++ t2 ++ "-" ++ u2 ++ "." ++ f2) :
    u1 = u2 := by
  have h := congrArg String.data hk
  have hdash : ("-" : String).data = ['-'] := rfl
  have hdot : ("." : String).data = ['.'] := rfl
  simp only [String.data_append, hdash, hdot, List.append_assoc, List.singleton_append] at h
  have h1 := List.append_cancel_left h
  have h2 := (List.append_inj h1 ht).2
  have h3 := (List.cons.inj h2).2
  have h4 := (List.append_inj h3 hu).1
  cases u1
  cases u2
  exact congrArg String.mk h4

/-! ### Claim theorems -/

/-- C1: For every request whose prompt parameter is missing, empty, or
whitespace-only (i.e. trims to empty) and which is not an OPTIONS
preflight, the handler returns status 400 with body exactly
`{"error": "Missing required parameter: prompt"}`, and neither the image
generation service nor the object storage service is called. -/
theorem empty_prompt_client_error (cfg : Config) (ext : World) (event : Event)
    (hm : event.httpMethod ≠ some "OPTIONS")
    (hp : (_get_param event "prompt" "").trim = "") :
    lambda_handler cfg ext event =
      { result := .ok
          { statusCode := 400, headers := _headers,
            body := .obj [("error", .str "Missing required parameter: prompt")] },
        bedrockCalls := [], putCalls := [] } :=
  lambda_handler_emptyPrompt cfg ext event hm hp

/-- Witness for C1 at a whitespace-only prompt. -/
theorem empty_prompt_client_error_witness :
    lambda_handler cfg0 (w0 (.obj []))
        { httpMethod := some "GET", params := [("prompt", "   ")], queryStringParameters := none } =
      { result := .ok
          { statusCode := 400, headers := _headers,
            body := .obj [("error", .str "Missing required parameter: prompt")] },
        bedrockCalls := [], putCalls := [] } :=
  empty_prompt_client_error cfg0 (w0 (.obj [])) _ (by decide) (by with_unfolding_all rfl)

/-- C4: For every request whose httpMethod is OPTIONS, the handler returns
status 200 with body `{"ok": true}` regardless of any other parameters,
and no backend call is made. -/
theorem options_preflight_ok (cfg : Config) (ext : World) (event : Event)
    (hm : event.httpMethod = some "OPTIONS") :
    lambda_handler cfg ext event =
      { result := .ok { statusCode := 200, headers := _headers, body := .obj [("ok", .bool true)] },
        bedrockCalls := [], putCalls := [] } :=
  lambda_handler_options cfg ext event hm

/-- Witness for C4 with unrelated parameters present. -/
theorem options_preflight_ok_witness :
    lambda_handler cfg0 (w0 (.obj [("images", .arr [.str "QUJD"])]))
        { httpMethod := some "OPTIONS", params := [("prompt", "x"), ("junk", "y")],
          queryStringParameters := some [("aspect_ratio", "16:9")] } =
      { result := .ok { statusCode := 200, headers := _headers, body := .obj [("ok", .bool true)] },
        bedrockCalls := [], putCalls := [] } :=
  options_preflight_ok cfg0 (w0 (.obj [("images", .arr [.str "QUJD"])])) _ (by decide)

/-- C7: Every response produced by the handler (OPTIONS, 400, 502 and
success) carries exactly the four CORS headers of `_headers()`. -/
theorem all_responses_carry_cors (cfg : Config) (ext : World) (event : Event) (r : Response)
    (h : (lambda_handler cfg ext event).result = .ok r) :
    r.headers = _headers := by
  by_cases hm : event.httpMethod = some "OPTIONS"
  · rw [lambda_handler_options cfg ext event hm] at h
    cases Except.ok.inj h
    rfl
  · by_cases hp : (_get_param event "prompt" "").trim = ""
    · rw [lambda_handler_emptyPrompt cfg ext event hm hp] at h
      cases Except.ok.inj h
      rfl
    · cases hE : extractImage ext.bedrockData with
      | error e =>
        rw [lambda_handler_extractError cfg ext event e hm hp hE] at h
        exact Except.noConfusion h
      | ok o =>
        cases o with
        | none =>
          rw [lambda_handler_noImage cfg ext event hm hp hE] at h
          cases Except.ok.inj h
          rfl
        | some v =>
          cases hB : b64decodePy v with
          | error e =>
            rw [lambda_handler_decodeError cfg ext event v e hm hp hE hB] at h
            exact Except.noConfusion h
          | ok bytes =>
            rw [lambda_handler_success cfg ext event v bytes hm hp hE hB] at h
            cases Except.ok.inj h
            rfl

/-- Witness for C7 on an OPTIONS response. -/
theorem all_responses_carry_cors_witness :
    Response.headers { statusCode := 200, headers := _headers, body := .obj [("ok", .bool true)] } =
      _headers :=
  all_responses_carry_cors cfg0 (w0 (.obj []))
    { httpMethod := some "OPTIONS", params := [], queryStringParameters := none } _
    (by with_unfolding_all rfl)

/-- C9: A parameter present in the direct field map always wins; the query
string is consulted only when the direct map lacks it. -/
theorem direct_param_precedence (event : Event) (name v dflt : String) :
    (event.params.lookup name = some v → _get_param event name dflt = v) ∧
    (event.params.lookup name = none →
      _get_param event name dflt = ((_qsp event).lookup name).getD dflt) := by
  constructor
  · intro h
    unfold _get_param
    rw [h]
  · intro h
    unfold _get_param
    rw [h]
    cases hq : (_qsp event).lookup name <;> simp

/-- Witness for C9: a parameter supplied in both sources resolves to the
direct map's value. -/
theorem direct_param_precedence_witness :
    _get_param { httpMethod := none, params := [("prompt", "direct")],
                 queryStringParameters := some [("prompt", "qs")] } "prompt" "" = "direct" :=
  (direct_param_precedence _ "prompt" "direct" "").1 (by decide)

/-- The fixture prompt "hi" survives trimming. -/
theorem ev0_prompt_ok : (_get_param ev0 "prompt" "").trim ≠ "" := by
  have h : (_get_param ev0 "prompt" "").trim = "hi" := by with_unfolding_all rfl
  rw [h]
  decide

/-- C6: For every non-OPTIONS request with a valid prompt, omitting
aspect_ratio (from both sources) puts "1:1" in the provider payload, and
omitting output_format puts "png". -/
theorem default_generation_params (cfg : Config) (ext : World) (event : Event)
    (hm : event.httpMethod ≠ some "OPTIONS")
    (hp : (_get_param event "prompt" "").trim ≠ "") :
    ((event.params.lookup "aspect_ratio" = none ∧
        (_qsp event).lookup "aspect_ratio" = none) →
      (lambda_handler cfg ext event).bedrockCalls.map (fun b => jsonGet b "aspect_ratio") =
        [some (.str "1:1")]) ∧
    ((event.params.lookup "output_format" = none ∧
        (_qsp event).lookup "output_format" = none) →
      (lambda_handler cfg ext event).bedrockCalls.map (fun b => jsonGet b "output_format") =
        [some (.str "png")]) := by
  have hB := lambda_handler_bedrockCalls cfg ext event hm hp
  constructor
  · rintro ⟨h1, h2⟩
    have hg : _get_param event "aspect_ratio" "1:1" = "1:1" := by
      unfold _get_param
      rw [h1, h2]
    have ht : ("1:1" : String).trim = "1:1" := by with_unfolding_all rfl
    rw [hB, hg, ht]
    simp [request_body, jsonGet, List.lookup]
  · rintro ⟨h1, h2⟩
    have hg : _get_param event "output_format" "png" = "png" := by
      unfold _get_param
      rw [h1, h2]
    have ht : ("png" : String).trim = "png" := by with_unfolding_all rfl
    rw [hB, hg, ht]
    simp [request_body, jsonGet, List.lookup]

/-- Witness for C6: a request carrying only a prompt gets both defaults. -/
theorem default_generation_params_witness :
    (lambda_handler cfg0 (w0 (.obj [])) ev0).bedrockCalls.map
        (fun b => jsonGet b "aspect_ratio") = [some (.str "1:1")] ∧
    (lambda_handler cfg0 (w0 (.obj [])) ev0).bedrockCalls.map
        (fun b => jsonGet b "output_format") = [some (.str "png")] :=
  ⟨(default_generation_params cfg0 (w0 (.obj [])) ev0 (by decide)
      ev0_prompt_ok).1 ⟨by decide, by decide⟩,
   (default_generation_params cfg0 (w0 (.obj [])) ev0 (by decide)
      ev0_prompt_ok).2 ⟨by decide, by decide⟩⟩

/-- C10: supplying aspect_ratio or output_format explicitly as a
whitespace-only string — through the direct field map, or through the
query string when the direct map lacks the key — puts the empty string
(the stripped value) in the provider payload, not the documented default. -/
theorem whitespace_param_not_defaulted (cfg : Config) (ext : World) (event : Event) (s : String)
    (hm : event.httpMethod ≠ some "OPTIONS")
    (hp : (_get_param event "prompt" "").trim ≠ "")
    (hs : s.trim = "") :
    ((event.params.lookup "aspect_ratio" = some s ∨
        (event.params.lookup "aspect_ratio" = none ∧
          (_qsp event).lookup "aspect_ratio" = some s)) →
      (lambda_handler cfg ext event).bedrockCalls.map (fun b => jsonGet b "aspect_ratio") =
        [some (.str "")]) ∧
    ((event.params.lookup "output_format" = some s ∨
        (event.params.lookup "output_format" = none ∧
          (_qsp event).lookup "output_format" = some s)) →
      (lambda_handler cfg ext event).bedrockCalls.map (fun b => jsonGet b "output_format") =
        [some (.str "")]) := by
  have hB := lambda_handler_bedrockCalls cfg ext event hm hp
  constructor
  · intro h1
    have hg : _get_param event "aspect_ratio" "1:1" = s := by
      unfold _get_param
      rcases h1 with h1 | ⟨h1, h2⟩
      · rw [h1]
      · rw [h1, h2]
    rw [hB, hg, hs]
    simp [request_body, jsonGet, List.lookup]
  · intro h1
    have hg : _get_param event "output_format" "png" = s := by
      unfold _get_param
      rcases h1 with h1 | ⟨h1, h2⟩
      · rw [h1]
      · rw [h1, h2]
    rw [hB, hg, hs]
    simp [request_body, jsonGet, List.lookup]

/-- Event supplying aspect_ratio as three spaces in the direct field map. -/
def evAR : Event :=
  { httpMethod := some "GET", params := [("prompt", "hi"), ("aspect_ratio", "   ")],
    queryStringParameters := none }

/-- Event supplying output_format as three spaces through the query string
only. -/
def evQS : Event :=
  { httpMethod := some "GET", params := [("prompt", "hi")],
    queryStringParameters := some [("output_format", "   ")] }

/-- Witness for C10: a whitespace-only value through each supply channel
(direct map for aspect_ratio, query string for output_format). -/
theorem whitespace_param_not_defaulted_witness :
    (lambda_handler cfg0 (w0 (.obj [])) evAR).bedrockCalls.map
      (fun b => jsonGet b "aspect_ratio") = [some (.str "")] ∧
    (lambda_handler cfg0 (w0 (.obj [])) evQS).bedrockCalls.map
      (fun b => jsonGet b "output_format") = [some (.str "")] :=
  ⟨(whitespace_param_not_defaulted cfg0 (w0 (.obj [])) evAR "   " (by decide)
      (by
        have h : (_get_param evAR "prompt" "").trim = "hi" := by with_unfolding_all rfl
        rw [h]
        decide)
      (by with_unfolding_all rfl)).1 (Or.inl (by decide)),
   (whitespace_param_not_defaulted cfg0 (w0 (.obj [])) evQS "   " (by decide)
      (by
        have h : (_get_param evQS "prompt" "").trim = "hi" := by with_unfolding_all rfl
        rw [h]
        decide)
      (by with_unfolding_all rfl)).2 (Or.inr ⟨by decide, by decide⟩)⟩

/-- Bedrock response fixture in the primary `images` shape. -/
def dataImages : Json := .obj [("images", .arr [.str "QUJD"])]

/-- Bedrock response fixture in the fallback `artifacts` shape. -/
def dataArtB64 : Json := .obj [("artifacts", .arr [.obj [("base64", .str "QUJD")]])]

/-- The upload recorded for `dataImages` under `cfg0`/`w0`/`ev0`. -/
def pcImages : PutCall :=
  { bucket := "bkt", key := "generated/20261012T000000Z-aaaa.png", body := [65, 66, 67],
    contentType := "image/png" }

/-- A second invocation differing from `w0` only in the UUID draw. -/
def wB : World :=
  { bedrockData := dataImages, ts := "20261012T000000Z", uuidHex := "bbbb",
    presign := fun k => "https://signed.example/" ++ k }

/-- The upload recorded for `dataImages` under `cfg0`/`wB`/`ev0`. -/
def pcImagesB : PutCall :=
  { bucket := "bkt", key := "generated/20261012T000000Z-bbbb.png", body := [65, 66, 67],
    contentType := "image/png" }

/-- C8: every successful request (one recorded upload) returns status 200
with body exactly `{"presigned_url": <signed url of the uploaded key>}`;
in particular the plain object URL is absent. -/
theorem success_returns_presigned_only (cfg : Config) (ext : World) (event : Event) (pc : PutCall)
    (h : (lambda_handler cfg ext event).putCalls = [pc]) :
    (lambda_handler cfg ext event).result =
      .ok { statusCode := 200, headers := _headers,
            body := .obj [("presigned_url", .str (ext.presign pc.key))] } :=
  (lambda_handler_put_inv cfg ext event pc h).2

/-- Witness for C8 on a concrete successful invocation. -/
theorem success_returns_presigned_only_witness :
    (lambda_handler cfg0 (w0 dataImages) ev0).result =
      .ok { statusCode := 200, headers := _headers,
            body := .obj [("presigned_url", .str ((w0 dataImages).presign pcImages.key))] } :=
  success_returns_presigned_only cfg0 (w0 dataImages) ev0 pcImages (by with_unfolding_all rfl)

/-- C5: the storage key of every recorded upload is the configured prefix
normalized to end in "/", then the UTC timestamp, "-", the unique suffix,
".", and the output format; and two successful requests whose random
suffixes differ (timestamps and suffixes being fixed-width) never produce
the same key. -/
theorem storage_key_format_and_unique :
    (∀ (cfg : Config) (ext : World) (event : Event) (pc : PutCall),
      (lambda_handler cfg ext event).putCalls = [pc] →
      pc.key = (if cfg.KEY_PREFIX.endsWith "/" then cfg.KEY_PREFIX else cfg.KEY_PREFIX ++ "/") ++
        ext.ts ++ "-" ++ ext.uuidHex ++ "." ++ (_get_param event "output_format" "png").trim) ∧
    (∀ (cfg : Config) (ext₁ ext₂ : World) (ev₁ ev₂ : Event) (pc₁ pc₂ : PutCall),
      (lambda_handler cfg ext₁ ev₁).putCalls = [pc₁] →
      (lambda_handler cfg ext₂ ev₂).putCalls = [pc₂] →
      ext₁.ts.length = ext₂.ts.length →
      ext₁.uuidHex.length = ext₂.uuidHex.length →
      ext₁.uuidHex ≠ ext₂.uuidHex →
      pc₁.key ≠ pc₂.key) := by
  constructor
  · intro cfg ext event pc h
    exact (lambda_handler_put_inv cfg ext event pc h).1
  · intro cfg ext₁ ext₂ ev₁ ev₂ pc₁ pc₂ h1 h2 ht hu hne hk
    rw [(lambda_handler_put_inv cfg ext₁ ev₁ pc₁ h1).1,
      (lambda_handler_put_inv cfg ext₂ ev₂ pc₂ h2).1] at hk
    exact hne (key_build_inj _ _ _ _ _ _ _ ht hu hk)

/-- Witness for C5: key shape of a concrete upload, and distinct keys for
two runs differing in the UUID draw. -/
theorem storage_key_format_and_unique_witness :
    pcImages.key =
      (if cfg0.KEY_PREFIX.endsWith "/" then cfg0.KEY_PREFIX else cfg0.KEY_PREFIX ++ "/") ++
        (w0 dataImages).ts ++ "-" ++ (w0 dataImages).uuidHex ++ "." ++
        (_get_param ev0 "output_format" "png").trim ∧
    pcImages.key ≠ pcImagesB.key :=
  ⟨storage_key_format_and_unique.1 cfg0 (w0 dataImages) ev0 pcImages
      (by with_unfolding_all rfl),
   storage_key_format_and_unique.2 cfg0 (w0 dataImages) wB ev0 ev0 pcImages pcImagesB
      (by with_unfolding_all rfl) (by with_unfolding_all rfl) rfl (by decide) (by decide)⟩

/-- A generation response with a truthy artifacts list whose first element
lacks `base64`: neither recognized shape yields an image here. -/
def dataArtNoB64 : Json := .obj [("artifacts", .arr [.obj []])]

/-- C2 counterexample: on `{"artifacts": [{}]}` — a response from which
neither recognized shape yields an image — the handler does not return the
502 upstream-error response; `base64.b64decode(None)` raises an unhandled
`TypeError`. -/
theorem no_image_upstream_error_cex :
    (lambda_handler cfg0 (w0 dataArtNoB64) ev0).result = .error "TypeError: b64decode argument" ∧
    (lambda_handler cfg0 (w0 dataArtNoB64) ev0).result ≠
      .ok (_resp 502 (.obj [("error", .str "No image in Bedrock response"),
                            ("raw", dataArtNoB64)])) := by
  have h : (lambda_handler cfg0 (w0 dataArtNoB64) ev0).result =
      .error "TypeError: b64decode argument" := by
    with_unfolding_all rfl
  refine ⟨h, ?_⟩
  intro hcontra
  rw [h] at hcontra
  exact Except.noConfusion hcontra

/-- C2 (amended): For every generation response on which the shape probe
completes and finds no image — neither a truthy `images` member nor a
truthy `artifacts` member, in particular `{}` — the handler returns 502
with the `error` field "No image in Bedrock response" and a `raw` field
holding the provider response, and no upload occurs. (When a truthy
`artifacts` list's first element lacks `base64`, the handler instead
raises an unhandled `TypeError`; see the counterexample.) -/
theorem no_image_upstream_error (cfg : Config) (ext : World) (event : Event)
    (hm : event.httpMethod ≠ some "OPTIONS")
    (hp : (_get_param event "prompt" "").trim ≠ "")
    (hx : extractImage ext.bedrockData = .ok none) :
    (lambda_handler cfg ext event).result =
      .ok (_resp 502 (.obj [("error", .str "No image in Bedrock response"),
                            ("raw", ext.bedrockData)])) ∧
    (lambda_handler cfg ext event).putCalls = [] := by
  rw [lambda_handler_noImage cfg ext event hm hp hx]
  exact ⟨rfl, rfl⟩

/-- Witness for the amended C2 at the empty object `{}`. -/
theorem no_image_upstream_error_witness :
    (lambda_handler cfg0 (w0 (.obj [])) ev0).result =
      .ok (_resp 502 (.obj [("error", .str "No image in Bedrock response"),
                            ("raw", .obj [])])) ∧
    (lambda_handler cfg0 (w0 (.obj [])) ev0).putCalls = [] :=
  no_image_upstream_error cfg0 (w0 (.obj [])) ev0 (by decide) ev0_prompt_ok rfl

/-- C3: For every generation response in either recognized shape — a
top-level non-empty `images` list (checked first, regardless of any
`artifacts` member), or, only as fallback when `images` is absent or
falsy, a non-empty `artifacts` list whose first element carries `base64` —
the bytes uploaded to storage are exactly the base64 decoding of that
encoded image. -/
theorem recognized_shape_upload_decoded (cfg : Config) (ext : World) (event : Event)
    (kvs : List (String × Json)) (s : String) (bs : List Nat)
    (hm : event.httpMethod ≠ some "OPTIONS")
    (hp : (_get_param event "prompt" "").trim ≠ "")
    (hd : ext.bedrockData = .obj kvs)
    (hb : b64decode s = some bs) :
    (∀ rest, kvs.lookup "images" = some (.arr (.str s :: rest)) →
      (lambda_handler cfg ext event).putCalls.map PutCall.body = [bs]) ∧
    (∀ akvs arest, (∀ v, kvs.lookup "images" = some v → jsonTruthy v = false) →
      kvs.lookup "artifacts" = some (.arr (.obj akvs :: arest)) →
      akvs.lookup "base64" = some (.str s) →
      (lambda_handler cfg ext event).putCalls.map PutCall.body = [bs]) := by
  have hdec : b64decodePy (.str s) = .ok bs := by
    simp [b64decodePy, hb]
  constructor
  · intro rest himg
    have hx : extractImage ext.bedrockData = .ok (some (.str s)) := by
      rw [hd]
      exact extractImage_images kvs (.str s) rest himg
    rw [lambda_handler_success cfg ext event (.str s) bs hm hp hx hdec]
    rfl
  · intro akvs arest hi ha hbase
    have hx : extractImage ext.bedrockData = .ok (some (.str s)) := by
      rw [hd]
      have hart := extractImage_artifacts kvs akvs arest hi ha
      rw [hbase] at hart
      simpa using hart
    rw [lambda_handler_success cfg ext event (.str s) bs hm hp hx hdec]
    rfl

/-- Witness for C3: both recognized shapes at "QUJD", decoding to the
bytes of "ABC". -/
theorem recognized_shape_upload_decoded_witness :
    (lambda_handler cfg0 (w0 dataImages) ev0).putCalls.map PutCall.body = [[65, 66, 67]] ∧
    (lambda_handler cfg0 (w0 dataArtB64) ev0).putCalls.map PutCall.body = [[65, 66, 67]] :=
  ⟨(recognized_shape_upload_decoded cfg0 (w0 dataImages) ev0
      [("images", .arr [.str "QUJD"])] "QUJD" [65, 66, 67]
      (by decide) ev0_prompt_ok rfl rfl).1 [] (by with_unfolding_all rfl),
   (recognized_shape_upload_decoded cfg0 (w0 dataArtB64) ev0
      [("artifacts", .arr [.obj [("base64", .str "QUJD")]])] "QUJD" [65, 66, 67]
      (by decide) ev0_prompt_ok rfl rfl).2 [("base64", .str "QUJD")] []
      (fun v hv => by simp [List.lookup] at hv) (by with_unfolding_all rfl)
      (by with_unfolding_all rfl)⟩
